import Mathlib

/-!
# tailscale-cleanup: a shallow embedding of `main.go`

The program lists the devices of a tailnet, skips the ones whose name matches an
exclusion entry, and deletes the ones last seen longer ago than a threshold.

Modelling decisions, all stated where they are made:

* Go strings are Lean strings; `strings.Contains` is the search for a contiguous run
  of characters.
* `time.Time` is an integer count of nanoseconds after the zero time, `time.Duration`
  is an integer inside the int64 range, and `Time.Sub` saturates as the `time`
  package documents.
* The outside world (the HTTP transport, the JSON decoder, the clock, the kingpin
  command-line parser) is a record of functions `Env`; every theorem quantifies over it.
* Effects are recorded as a list of events: the HTTP requests handed to the client,
  the entries into `deleteDevice`, and the lines printed.
-/

namespace TailscaleCleanup

/-! ## Time -/

/-- Smallest `time.Duration`: the least int64, in nanoseconds. -/
def minDuration : Int := -9223372036854775808

/-- Largest `time.Duration`: the greatest int64, in nanoseconds. -/
def maxDuration : Int := 9223372036854775807

/-- A `time.Duration`: a signed 64-bit count of nanoseconds. -/
structure Duration where
  ns : Int
  lo : minDuration ≤ ns
  hi : ns ≤ maxDuration

instance : DecidableEq Duration := fun a b =>
  if h : a.ns = b.ns then isTrue (by cases a; cases b; cases h; rfl)
  else isFalse (fun e => h (by rw [e]))

/-- A `time.Time` read on the wall clock: nanoseconds after the zero time
(1 January of year 1, 00:00:00 UTC). -/
abbrev Time := Int

/-- The zero `time.Time`, the value a `Device` keeps when the `lastSeen` field of the
JSON object is absent. -/
def zeroTime : Time := 0

/-- The method `t.Sub(u)` of the `time` package: the difference `t - u`, replaced by the maximum
(or minimum) duration when it does not fit in a `Duration`. -/
def timeSub (t u : Time) : Duration :=
  if h1 : t - u < minDuration then ⟨minDuration, le_refl _, by decide⟩
  else if h2 : maxDuration < t - u then ⟨maxDuration, by decide, le_refl _⟩
  else ⟨t - u, not_lt.mp h1, not_lt.mp h2⟩

/-! ## Data model -/

/-- Device represents a Tailscale device. -/
structure Device where
  ID : String
  Name : String
  LastSeen : Time
deriving DecidableEq

/-- Config holds the CLI configuration. -/
structure Config where
  APIKey : String
  BaseURL : String
  TailnetName : String
  LastSeenTimeout : Duration
  ExcludedDevices : List String
deriving DecidableEq

/-- The package-level variable `Version`. -/
def Version : String := "dev"

/-! ## Errors, requests and events -/

/-- A Go `error` value as the program builds it. -/
inductive GoError where
  /-- an error returned by a library call (`http.NewRequest`, `Client.Do`,
  `Decoder.Decode`), with its message -/
  | lib (msg : String)
  /-- the error `fmt.Errorf("unexpected status: %s, body: %s", resp.Status, body)` -/
  | unexpectedStatus (status : String) (body : String)
  /-- the error `fmt.Errorf(context + ": %w", cause)` -/
  | wrapped (context : String) (cause : GoError)
deriving DecidableEq

/-- The method `Error()`: the message of an error. -/
def GoError.Error : GoError → String
  | .lib msg => msg
  | .unexpectedStatus status body => "unexpected status: " ++ status ++ ", body: " ++ body
  | .wrapped context cause => context ++ ": " ++ cause.Error

/-- An `*http.Request` as the program prepares it: method, URL, the basic-auth user and
password, and the `Accept` header. -/
structure Request where
  method : String
  url : String
  user : String
  password : String
  accept : String
deriving DecidableEq

/-- The fields of an `*http.Response` the program reads; `Body` is what `io.ReadAll`
(or the JSON decoder) gets from the body stream. -/
structure Response where
  StatusCode : Int
  Status : String
  Body : String
deriving DecidableEq

/-- The constant `http.StatusOK`. -/
def StatusOK : Int := 200

/-- The lines the program prints, one constructor for each `Printf`, `Println` and
`Fprintf` of `main.go`. -/
inductive Report where
  | skippingExcluded (name : String) (id : String)
  | disconnectedFound (timeSinceLastSeen : Duration) (name : String) (id : String)
  | failedToDelete (name : String) (err : GoError)
  | deleted (name : String)
  | dryRunSkip
  | version (v : String)
  | errorParsing (err : String)
  | errorFatal (err : GoError)
deriving DecidableEq

/-- The text of a printed line; `durationString` stands for `Duration.String`, which
the verb `%v` calls. -/
def Report.text (durationString : Duration → String) : Report → String
  | .skippingExcluded name id => "Skipping excluded device: " ++ name ++ " (" ++ id ++ ")\n"
  | .disconnectedFound d name id =>
      "Disconnected device found (last seen " ++ durationString d ++ " ago): "
        ++ name ++ " (" ++ id ++ ")\n"
  | .failedToDelete name err => "Failed to delete device " ++ name ++ ": " ++ err.Error ++ "\n"
  | .deleted name => "Deleted device: " ++ name ++ "\n"
  | .dryRunSkip => "Dry run enabled; skipping deletion.\n"
  | .version v => "Version: " ++ v ++ "\n"
  | .errorParsing err => "Error parsing arguments: " ++ err ++ "\n"
  | .errorFatal err => "Error: " ++ err.Error ++ "\n"

/-- Whether a line goes to standard error (`Fprintf(os.Stderr, ...)`) rather than to
standard output. -/
def Report.toStderr : Report → Bool
  | .errorParsing _ => true
  | .errorFatal _ => true
  | _ => false

/-- What one run does to the outside, in order. -/
inductive Event where
  /-- a request handed to `http.DefaultClient.Do` -/
  | http (req : Request)
  /-- control enters `deleteDevice(config, deviceID)` -/
  | deleteCall (deviceID : String)
  /-- a line is printed -/
  | print (r : Report)
deriving DecidableEq

/-- The values `app.Parse` stores in the flags registered on `app`. -/
structure Flags where
  apiKey : String
  baseURL : String
  tailnetName : String
  lastSeenDuration : Duration
  exclude : List String
  dryRun : Bool
deriving DecidableEq

/-- How `app.Parse(os.Args[1:])` ends. -/
inductive ParseResult where
  /-- it returns an error -/
  | error (msg : String)
  /-- it returns without error, the flags of `app` holding these values -/
  | ok (flags : Flags)
  /-- it ends the process itself with this exit code (the built-in help flag) -/
  | exited (code : Nat)

/-- The outside world of one run. -/
structure Env where
  /-- the call `http.NewRequest(method, url, nil)`: the error message when it fails -/
  newRequestError : String → String → Option String
  /-- the call `http.DefaultClient.Do(req)` after the given events: a transport error message or
  the response -/
  clientDo : List Event → Request → Except String Response
  /-- the call `json.NewDecoder(resp.Body).Decode(&listResponse)` followed by
  `listResponse.Devices`: an error message or the devices -/
  decodeDevices : String → Except String (List Device)
  /-- the call `time.Now()` -/
  now : Time
  /-- the call `app.Parse(os.Args[1:])` -/
  appParse : List String → ParseResult

/-! ## The exclusion matcher -/

/-- Whether the characters `p` start the characters `s`. -/
def startsWith : List Char → List Char → Bool
  | _, [] => true
  | [], _ :: _ => false
  | c :: s, d :: p => c == d && startsWith s p

/-- Whether the characters `sub` occur at some position of `s`. -/
def containsChars : List Char → List Char → Bool
  | [], sub => startsWith [] sub
  | c :: s, sub => startsWith (c :: s) sub || containsChars s sub

/-- The function `strings.Contains(s, substr)`: whether `substr` is within `s`. -/
def stringsContains (s substr : String) : Bool :=
  containsChars s.data substr.data

/-- The loop of `isExcluded` over the exclusion list. -/
def isExcluded (deviceName : String) : List String → Bool
  | [] => false
  | exclude :: rest =>
      if stringsContains deviceName exclude then true else isExcluded deviceName rest

/-! ## The two API calls -/

/-- The request `listDevices` prepares. -/
def listRequest (config : Config) : Request :=
  ⟨"GET", config.BaseURL ++ "/tailnet/" ++ config.TailnetName ++ "/devices",
    config.APIKey, "", "application/json"⟩

/-- The request `deleteDevice` prepares. -/
def deleteRequest (config : Config) (deviceID : String) : Request :=
  ⟨"DELETE", config.BaseURL ++ "/device/" ++ deviceID, config.APIKey, "", "application/json"⟩

/-- The function `listDevices`, run after the events `hist`: its result and the events
it adds. -/
def listDevices (env : Env) (config : Config) (hist : List Event) :
    Except GoError (List Device) × List Event :=
  let req := listRequest config
  match env.newRequestError req.method req.url with
  | some err => (.error (.wrapped "failed to create request" (.lib err)), [])
  | none =>
    match env.clientDo hist req with
    | .error err => (.error (.wrapped "failed to execute request" (.lib err)), [.http req])
    | .ok resp =>
      if resp.StatusCode ≠ StatusOK then
        (.error (.unexpectedStatus resp.Status resp.Body), [.http req])
      else
        match env.decodeDevices resp.Body with
        | .error err => (.error (.wrapped "failed to decode response" (.lib err)), [.http req])
        | .ok devices => (.ok devices, [.http req])

/-- The function `deleteDevice`, run after the events `hist`: the error it returns
(`none` for nil) and the events it adds. -/
def deleteDevice (env : Env) (config : Config) (deviceID : String) (hist : List Event) :
    Option GoError × List Event :=
  let req := deleteRequest config deviceID
  match env.newRequestError req.method req.url with
  | some err => (some (.wrapped "failed to create request" (.lib err)), [])
  | none =>
    match env.clientDo hist req with
    | .error err => (some (.wrapped "failed to execute request" (.lib err)), [.http req])
    | .ok resp =>
      if resp.StatusCode ≠ StatusOK then
        (some (.unexpectedStatus resp.Status resp.Body), [.http req])
      else
        (none, [.http req])

/-! ## The orchestrator -/

/-- One iteration of the loop of `cleanDisconnectedDevices`, run after the events
`hist`: the events it adds. -/
def loopBody (env : Env) (config : Config) (dryRun : Bool) (now : Time)
    (hist : List Event) (device : Device) : List Event :=
  if isExcluded device.Name config.ExcludedDevices then
    [.print (.skippingExcluded device.Name device.ID)]
  else
    let timeSinceLastSeen := timeSub now device.LastSeen
    if timeSinceLastSeen.ns > config.LastSeenTimeout.ns then
      let found := Event.print (.disconnectedFound timeSinceLastSeen device.Name device.ID)
      if !dryRun then
        let r := deleteDevice env config device.ID (hist ++ [found, .deleteCall device.ID])
        match r.1 with
        | some err =>
            [found, .deleteCall device.ID] ++ r.2 ++ [.print (.failedToDelete device.Name err)]
        | none =>
            [found, .deleteCall device.ID] ++ r.2 ++ [.print (.deleted device.Name)]
      else
        [found, .print .dryRunSkip]
    else
      []

/-- The loop `for _, device := range devices` of `cleanDisconnectedDevices`: the events
it adds after `hist`. -/
def loopEvents (env : Env) (config : Config) (dryRun : Bool) (now : Time) :
    List Event → List Device → List Event
  | _, [] => []
  | hist, device :: rest =>
      let ev := loopBody env config dryRun now hist device
      ev ++ loopEvents env config dryRun now (hist ++ ev) rest

/-- The function `cleanDisconnectedDevices`, run after the events `hist`: the error it
returns (`none` for nil) and the events it adds. -/
def cleanDisconnectedDevices (env : Env) (config : Config) (dryRun : Bool)
    (hist : List Event) : Option GoError × List Event :=
  let r := listDevices env config hist
  match r.1 with
  | .error err => (some (.wrapped "failed to list devices" err), r.2)
  | .ok devices =>
      let now := env.now
      (none, r.2 ++ loopEvents env config dryRun now (hist ++ r.2) devices)

/-! ## The entry point -/

/-- The kingpin applications of the process: `app`, made by `kingpin.New` in `main`, and
the package-level `kingpin.CommandLine`. -/
inductive KingpinApp where
  | app
  | CommandLine
deriving DecidableEq

/-- The application the flag `version` is registered on: `kingpin.Flag("version", ...)`
is `kingpin.CommandLine.Flag("version", ...)`. -/
def versionFlagOwner : KingpinApp := .CommandLine

/-- The application whose `Parse` method `main` calls: `app.Parse(os.Args[1:])`. -/
def parsedApp : KingpinApp := .app

/-- The value `*showVersion` holds when `main` tests it. `Parse` assigns the flags
registered on the application it is called on; the cell of a flag of another application
keeps the value it was created with, the zero value of `bool`. -/
def showVersion (args : List String) : Bool :=
  if versionFlagOwner = parsedApp then args.contains "--version" else false

/-- The `Config` literal `main` builds from the parsed flags. -/
def configOf (flags : Flags) : Config :=
  ⟨flags.apiKey, flags.baseURL, flags.tailnetName, flags.lastSeenDuration, flags.exclude⟩

/-- The function `main` on the arguments `os.Args[1:]`: the exit code of the process and
its events. -/
def main (env : Env) (args : List String) : Nat × List Event :=
  match env.appParse args with
  | .exited code => (code, [])
  | .error err => (1, [.print (.errorParsing err)])
  | .ok flags =>
      if showVersion args then
        (0, [.print (.version Version)])
      else
        let config := configOf flags
        let r := cleanDisconnectedDevices env config flags.dryRun []
        match r.1 with
        | some err => (1, r.2 ++ [.print (.errorFatal err)])
        | none => (0, r.2)

/-! ## Observations on a list of events -/

/-- The device identifiers `deleteDevice` was called with, in order. -/
def deleteCalls : List Event → List String
  | [] => []
  | .deleteCall id :: rest => id :: deleteCalls rest
  | _ :: rest => deleteCalls rest

/-- The requests handed to the HTTP client, in order. -/
def httpRequests : List Event → List Request
  | [] => []
  | .http req :: rest => req :: httpRequests rest
  | _ :: rest => httpRequests rest

/-- The lines printed, in order. -/
def reports : List Event → List Report
  | [] => []
  | .print r :: rest => r :: reports rest
  | _ :: rest => reports rest

/-- The two guards of the loop body that lead to the deletion branch: the device is not
excluded and the elapsed duration is greater than the threshold. -/
def isCandidate (config : Config) (now : Time) (device : Device) : Bool :=
  !isExcluded device.Name config.ExcludedDevices
    && decide ((timeSub now device.LastSeen).ns > config.LastSeenTimeout.ns)

/-- The events the dry-run mode is to produce for a listing, device by device: the skip
report for an excluded device, the disconnected report followed by the dry-run report for
a device last seen longer ago than the threshold, nothing for the others. -/
def dryRunEvents (config : Config) (now : Time) : List Device → List Event
  | [] => []
  | device :: rest =>
      (if isExcluded device.Name config.ExcludedDevices then
        [Event.print (.skippingExcluded device.Name device.ID)]
      else if (timeSub now device.LastSeen).ns > config.LastSeenTimeout.ns then
        [.print (.disconnectedFound (timeSub now device.LastSeen) device.Name device.ID),
          .print .dryRunSkip]
      else [])
      ++ dryRunEvents config now rest

/-! ## Concrete worlds and inputs -/

/-- A world in which `http.NewRequest` succeeds, every request is answered with `resp`,
the body of the list response decodes to `devices`, the clock reads `now`, and the
command line parses to `flags`. -/
def respondingEnv (resp : Response) (devices : List Device) (now : Time) (flags : Flags) :
    Env :=
  ⟨fun _ _ => none, fun _ _ => .ok resp, fun _ => .ok devices, now, fun _ => .ok flags⟩

/-- The response `200 OK` with an empty body. -/
def okResponse : Response := ⟨200, "200 OK", ""⟩

/-- The default threshold of the flag `last-seen-duration`, `15m`. -/
def fifteenMinutes : Duration := ⟨900000000000, by decide, by decide⟩

/-- The largest threshold the flag `last-seen-duration` can hold,
`2562047h47m16.854775807s`. -/
def maxThreshold : Duration := ⟨maxDuration, by decide, le_refl _⟩

/-- A clock reading in the year 2026: about 6.39e19 nanoseconds after the zero time. -/
def sampleNow : Time := 63900000000000000000

/-- A configuration with the given threshold and exclusion list. -/
def sampleConfig (threshold : Duration) (excluded : List String) : Config :=
  ⟨"key", "https://api.tailscale.com/api/v2", "example.com", threshold, excluded⟩

/-- The flags `--api-key=key --tailnet=example.com` with the given threshold, exclusion
list and dry-run flag. -/
def sampleFlags (threshold : Duration) (excluded : List String) (dryRun : Bool) : Flags :=
  ⟨"key", "https://api.tailscale.com/api/v2", "example.com", threshold, excluded, dryRun⟩

/-- The response `503 Service Unavailable`. -/
def unavailableResponse : Response := ⟨503, "503 Service Unavailable", "upstream down"⟩

/-- The response `204 No Content`. -/
def noContentResponse : Response := ⟨204, "204 No Content", ""⟩

/-- A world like `respondingEnv` in which the client answers `200 OK` to the `GET` of the
listing and `resp` to every other request. -/
def deleteAnswerEnv (resp : Response) (devices : List Device) (now : Time) (flags : Flags) :
    Env :=
  ⟨fun _ _ => none, fun _ req => if req.method = "GET" then .ok okResponse else .ok resp,
    fun _ => .ok devices, now, fun _ => .ok flags⟩

/-- The response `500 Internal Server Error`. -/
def serverErrorResponse : Response := ⟨500, "500 Internal Server Error", "boom"⟩

/-- The URL check of `http.NewRequest`: `url.Parse` refuses a URL holding an ASCII control
character (a byte below 0x20, or 0x7f). -/
def refuseControlCharacters (_method : String) (url : String) : Option String :=
  if url.data.any (fun c => decide (c.toNat < 32) || decide (c.toNat = 127)) then
    some "net/url: invalid control character in URL"
  else none

/-- A world like `deleteAnswerEnv` in which `http.NewRequest` refuses the URLs that hold a
control character. -/
def checkingEnv (resp : Response) (devices : List Device) (now : Time) (flags : Flags) :
    Env :=
  ⟨refuseControlCharacters,
    fun _ req => if req.method = "GET" then .ok okResponse else .ok resp,
    fun _ => .ok devices, now, fun _ => .ok flags⟩

/-- A device whose JSON object had no `lastSeen` field and whose `id` holds the control
character U+007F. -/
def ghostNode : Device := ⟨"n\x7f1", "ghost", zeroTime⟩

/-- A device last seen twenty minutes before `sampleNow` whose `id` holds the control
character U+007F. -/
def staleGhost : Device := ⟨"n\x7f4", "laptop-c", sampleNow - 1200000000000⟩

/-- A device whose JSON object had no `lastSeen` field. -/
def neverSeen : Device := ⟨"n1", "old-node", zeroTime⟩

/-- A device last seen twenty minutes before `sampleNow`. -/
def staleNode : Device := ⟨"n2", "laptop-b", sampleNow - 1200000000000⟩

/-- A device last seen one hour before `sampleNow`, with a name the entry
`build-server` matches. -/
def buildServer : Device := ⟨"n3", "build-server-1", sampleNow - 3600000000000⟩

/-! ## Substring search -/

theorem startsWith_iff (s p : List Char) : startsWith s p = true ↔ ∃ t, s = p ++ t := by
  induction p generalizing s with
  | nil => simp [startsWith]
  | cons d p ih =>
    cases s with
    | nil => simp [startsWith]
    | cons c s =>
      simp only [startsWith, Bool.and_eq_true, beq_iff_eq, ih, List.cons_append,
        List.cons.injEq]
      constructor
      · rintro ⟨rfl, t, rfl⟩
        exact ⟨t, rfl, rfl⟩
      · rintro ⟨t, rfl, rfl⟩
        exact ⟨rfl, t, rfl⟩

theorem containsChars_iff (s sub : List Char) :
    containsChars s sub = true ↔ ∃ pre post, s = pre ++ sub ++ post := by
  induction s with
  | nil =>
    simp only [containsChars, startsWith_iff]
    constructor
    · rintro ⟨t, ht⟩
      exact ⟨[], t, by simpa using ht⟩
    · rintro ⟨pre, post, h⟩
      have h1 : pre ++ sub ++ post = [] := h.symm
      simp only [List.append_eq_nil] at h1
      exact ⟨[], by simp [h1.1.2]⟩
  | cons c s ih =>
    simp only [containsChars, Bool.or_eq_true, startsWith_iff, ih]
    constructor
    · rintro (⟨t, ht⟩ | ⟨pre, post, h⟩)
      · exact ⟨[], t, by simpa using ht⟩
      · exact ⟨c :: pre, post, by simp [h]⟩
    · rintro ⟨pre, post, h⟩
      cases pre with
      | nil => exact Or.inl ⟨post, by simpa using h⟩
      | cons a pre =>
        simp only [List.cons_append, List.cons.injEq] at h
        exact Or.inr ⟨pre, post, h.2⟩

theorem stringsContains_iff (s sub : String) :
    stringsContains s sub = true ↔ ∃ pre post : String, s = pre ++ sub ++ post := by
  unfold stringsContains
  rw [containsChars_iff]
  constructor
  · rintro ⟨pre, post, h⟩
    refine ⟨⟨pre⟩, ⟨post⟩, ?_⟩
    apply String.ext
    simpa using h
  · rintro ⟨pre, post, h⟩
    exact ⟨pre.data, post.data, by simp [h]⟩

/-- C1: `isExcluded(D, E)` is true exactly when some entry of `E` occurs in `D` as a
contiguous run of characters (compared character by character, so with case), and
`isExcluded(D, [])` is false. -/
theorem isExcluded_iff_some_entry_is_substring (D : String) (E : List String) :
    (isExcluded D E = true ↔ ∃ e ∈ E, ∃ pre post : String, D = pre ++ e ++ post)
      ∧ isExcluded D [] = false := by
  refine ⟨?_, rfl⟩
  induction E with
  | nil => simp [isExcluded]
  | cons e rest ih =>
    simp only [isExcluded, List.mem_cons, exists_eq_or_imp]
    by_cases h : stringsContains D e = true
    · simp only [h, if_true, true_iff]
      exact Or.inl ((stringsContains_iff D e).mp h)
    · simp only [h, if_false, Bool.false_eq_true, ih]
      constructor
      · exact Or.inr
      · rintro (h1 | h1)
        · exact absurd ((stringsContains_iff D e).mpr h1) h
        · exact h1

/-! ## Saturating subtraction -/

theorem timeSub_ns_of_fits (t u : Time) (h1 : minDuration ≤ t - u) (h2 : t - u ≤ maxDuration) :
    (timeSub t u).ns = t - u := by
  unfold timeSub
  rw [dif_neg (not_lt.mpr h1), dif_neg (not_lt.mpr h2)]

theorem timeSub_ns_of_above (t u : Time) (h : maxDuration < t - u) :
    (timeSub t u).ns = maxDuration := by
  have h0 : minDuration ≤ maxDuration := by decide
  unfold timeSub
  rw [dif_neg (not_lt.mpr (le_trans h0 (le_of_lt h))), dif_pos h]

theorem timeSub_ns_of_below (t u : Time) (h : t - u < minDuration) :
    (timeSub t u).ns = minDuration := by
  unfold timeSub
  rw [dif_pos h]

/-- The saturated difference is greater than a threshold only if the exact difference
is. -/
theorem timeSub_gt_imp (t u : Time) (thr : Duration) (h : (timeSub t u).ns > thr.ns) :
    t - u > thr.ns := by
  by_cases h1 : t - u < minDuration
  · rw [timeSub_ns_of_below t u h1] at h
    exact absurd thr.lo (not_le.mpr h)
  · by_cases h2 : maxDuration < t - u
    · exact lt_of_le_of_lt thr.hi h2
    · rwa [timeSub_ns_of_fits t u (not_lt.mp h1) (not_lt.mp h2)] at h

/-- The exact difference is greater than a threshold only if the saturated one is,
as long as the difference fits in a duration or the threshold is not the maximum. -/
theorem timeSub_gt_of (t u : Time) (thr : Duration)
    (hfit : t - u ≤ maxDuration ∨ thr.ns < maxDuration) (h : t - u > thr.ns) :
    (timeSub t u).ns > thr.ns := by
  by_cases h2 : maxDuration < t - u
  · rw [timeSub_ns_of_above t u h2]
    rcases hfit with hfit | hfit
    · exact absurd hfit (not_le.mpr h2)
    · exact hfit
  · have h1 : minDuration ≤ t - u := le_trans thr.lo (le_of_lt h)
    rwa [timeSub_ns_of_fits t u h1 (not_lt.mp h2)]

/-! ## The loop body, branch by branch -/

theorem loopBody_of_excluded (env : Env) (config : Config) (dryRun : Bool) (now : Time)
    (hist : List Event) (device : Device)
    (hex : isExcluded device.Name config.ExcludedDevices = true) :
    loopBody env config dryRun now hist device
      = [.print (.skippingExcluded device.Name device.ID)] := by
  simp [loopBody, hex]

theorem loopBody_of_recent (env : Env) (config : Config) (dryRun : Bool) (now : Time)
    (hist : List Event) (device : Device)
    (hex : isExcluded device.Name config.ExcludedDevices = false)
    (h : ¬ (timeSub now device.LastSeen).ns > config.LastSeenTimeout.ns) :
    loopBody env config dryRun now hist device = [] := by
  simp only [loopBody, hex, Bool.false_eq_true, if_false]
  rw [if_neg h]

theorem loopBody_dry (env : Env) (config : Config) (now : Time)
    (hist : List Event) (device : Device)
    (hex : isExcluded device.Name config.ExcludedDevices = false)
    (h : (timeSub now device.LastSeen).ns > config.LastSeenTimeout.ns) :
    loopBody env config true now hist device
      = [.print (.disconnectedFound (timeSub now device.LastSeen) device.Name device.ID),
          .print .dryRunSkip] := by
  simp only [loopBody, hex, Bool.false_eq_true, if_false]
  rw [if_pos h]
  simp

theorem loopBody_wet (env : Env) (config : Config) (now : Time)
    (hist : List Event) (device : Device)
    (hex : isExcluded device.Name config.ExcludedDevices = false)
    (h : (timeSub now device.LastSeen).ns > config.LastSeenTimeout.ns) :
    loopBody env config false now hist device
      = [.print (.disconnectedFound (timeSub now device.LastSeen) device.Name device.ID),
          .deleteCall device.ID]
        ++ (deleteDevice env config device.ID (hist ++
            [.print (.disconnectedFound (timeSub now device.LastSeen) device.Name device.ID),
              .deleteCall device.ID])).2
        ++ [.print (match (deleteDevice env config device.ID (hist ++
            [.print (.disconnectedFound (timeSub now device.LastSeen) device.Name device.ID),
              .deleteCall device.ID])).1 with
            | some err => .failedToDelete device.Name err
            | none => .deleted device.Name)] := by
  simp only [loopBody, hex, Bool.false_eq_true, if_false]
  rw [if_pos h]
  simp only [Bool.not_false, if_true]
  split <;> rename_i heq <;> simp [heq]

/-! ## The observations distribute over concatenation -/

theorem deleteCalls_append (a b : List Event) :
    deleteCalls (a ++ b) = deleteCalls a ++ deleteCalls b := by
  induction a with
  | nil => rfl
  | cons e a ih => cases e <;> simp [deleteCalls, ih]

theorem httpRequests_append (a b : List Event) :
    httpRequests (a ++ b) = httpRequests a ++ httpRequests b := by
  induction a with
  | nil => rfl
  | cons e a ih => cases e <;> simp [httpRequests, ih]

theorem reports_append (a b : List Event) :
    reports (a ++ b) = reports a ++ reports b := by
  induction a with
  | nil => rfl
  | cons e a ih => cases e <;> simp [reports, ih]

/-- The events of `deleteDevice` are at most the one request it prepares. -/
theorem deleteDevice_events (env : Env) (config : Config) (deviceID : String)
    (hist : List Event) :
    (deleteDevice env config deviceID hist).2 = []
      ∨ (deleteDevice env config deviceID hist).2 = [.http (deleteRequest config deviceID)] := by
  unfold deleteDevice
  simp only
  split
  · exact Or.inl rfl
  · split
    · exact Or.inr rfl
    · split <;> exact Or.inr rfl

/-- The events of `listDevices` are at most the one request it prepares. -/
theorem listDevices_events (env : Env) (config : Config) (hist : List Event) :
    (listDevices env config hist).2 = []
      ∨ (listDevices env config hist).2 = [.http (listRequest config)] := by
  unfold listDevices
  simp only
  split
  · exact Or.inl rfl
  · split
    · exact Or.inr rfl
    · split
      · exact Or.inr rfl
      · split <;> exact Or.inr rfl

theorem deleteCalls_deleteDevice (env : Env) (config : Config) (deviceID : String)
    (hist : List Event) : deleteCalls (deleteDevice env config deviceID hist).2 = [] := by
  rcases deleteDevice_events env config deviceID hist with h | h <;> rw [h] <;> rfl

theorem loopEvents_append (env : Env) (config : Config) (dryRun : Bool) (now : Time)
    (hist : List Event) (a b : List Device) :
    loopEvents env config dryRun now hist (a ++ b)
      = loopEvents env config dryRun now hist a
        ++ loopEvents env config dryRun now
            (hist ++ loopEvents env config dryRun now hist a) b := by
  induction a generalizing hist with
  | nil => simp [loopEvents]
  | cons d a ih => simp [loopEvents, ih, List.append_assoc]

/-! ## Exclusion comes first -/

/-- C3: for a listed device whose name matches an exclusion entry, whatever its last-seen
time, the threshold and `dryRun`, the loop body produces exactly one event, the report
`Skipping excluded device: <name> (<id>)`; so there is no `Disconnected device found`
report, no call of `deleteDevice` and no HTTP request for it, and the loop goes on with
the devices after it. -/
theorem excluded_device_is_only_skipped (env : Env) (config : Config) (dryRun : Bool)
    (now : Time) (hist : List Event) (device : Device)
    (hex : isExcluded device.Name config.ExcludedDevices = true) :
    loopBody env config dryRun now hist device
        = [.print (.skippingExcluded device.Name device.ID)]
      ∧ (∀ durationString, (Report.skippingExcluded device.Name device.ID).text durationString
          = "Skipping excluded device: " ++ device.Name ++ " (" ++ device.ID ++ ")\n")
      ∧ (∀ d name id, Event.print (.disconnectedFound d name id)
          ∉ loopBody env config dryRun now hist device)
      ∧ deleteCalls (loopBody env config dryRun now hist device) = []
      ∧ httpRequests (loopBody env config dryRun now hist device) = []
      ∧ (∀ before after, loopEvents env config dryRun now hist (before ++ device :: after)
          = loopEvents env config dryRun now hist before
            ++ [.print (.skippingExcluded device.Name device.ID)]
            ++ loopEvents env config dryRun now
                (hist ++ loopEvents env config dryRun now hist before
                  ++ [.print (.skippingExcluded device.Name device.ID)]) after) := by
  have h := loopBody_of_excluded env config dryRun now hist device hex
  refine ⟨h, fun _ => rfl, ?_, ?_, ?_, ?_⟩
  · intro d name id
    rw [h]
    simp
  · rw [h]; rfl
  · rw [h]; rfl
  · intro before after
    rw [loopEvents_append]
    simp only [loopEvents]
    rw [loopBody_of_excluded env config dryRun now _ device hex]
    simp [List.append_assoc]

/-- C3 at the device `buildServer`, last seen an hour ago, with the exclusion entry
`build-server` and the threshold of fifteen minutes. -/
theorem excluded_device_is_only_skipped_witness :
    isExcluded buildServer.Name (sampleConfig fifteenMinutes ["build-server"]).ExcludedDevices
        = true
      ∧ loopBody (respondingEnv okResponse [buildServer] sampleNow
            (sampleFlags fifteenMinutes ["build-server"] false))
          (sampleConfig fifteenMinutes ["build-server"]) false sampleNow [] buildServer
        = [.print (.skippingExcluded "build-server-1" "n3")] :=
  ⟨by decide,
    (excluded_device_is_only_skipped
      (respondingEnv okResponse [buildServer] sampleNow
        (sampleFlags fifteenMinutes ["build-server"] false))
      (sampleConfig fifteenMinutes ["build-server"]) false sampleNow [] buildServer
      (by decide)).1⟩

/-! ## The calls of `deleteDevice` over the whole loop -/

theorem deleteCalls_loopBody (env : Env) (config : Config) (dryRun : Bool) (now : Time)
    (hist : List Event) (device : Device) :
    deleteCalls (loopBody env config dryRun now hist device)
      = if dryRun = false ∧ isCandidate config now device = true then [device.ID] else [] := by
  cases hex : isExcluded device.Name config.ExcludedDevices with
  | true =>
    rw [loopBody_of_excluded env config dryRun now hist device hex]
    simp [isCandidate, hex, deleteCalls]
  | false =>
    by_cases h : (timeSub now device.LastSeen).ns > config.LastSeenTimeout.ns
    · cases dryRun with
      | true =>
        rw [loopBody_dry env config now hist device hex h]
        simp [deleteCalls]
      | false =>
        rw [loopBody_wet env config now hist device hex h]
        simp only [deleteCalls_append, deleteCalls_deleteDevice]
        simp [isCandidate, hex, h, deleteCalls]
    · rw [loopBody_of_recent env config dryRun now hist device hex h]
      simp [isCandidate, hex, h, deleteCalls]

theorem deleteCalls_loopEvents (env : Env) (config : Config) (dryRun : Bool) (now : Time)
    (hist : List Event) (devices : List Device) :
    deleteCalls (loopEvents env config dryRun now hist devices)
      = if dryRun = false then ((devices.filter (isCandidate config now)).map Device.ID)
        else [] := by
  induction devices generalizing hist with
  | nil => simp [loopEvents, deleteCalls]
  | cons d rest ih =>
    simp only [loopEvents, deleteCalls_append, deleteCalls_loopBody, ih]
    cases dryRun with
    | true => simp
    | false =>
      cases hc : isCandidate config now d <;> simp [List.filter_cons, hc]

theorem deleteCalls_listDevices (env : Env) (config : Config) (hist : List Event) :
    deleteCalls (listDevices env config hist).2 = [] := by
  rcases listDevices_events env config hist with h | h <;> rw [h] <;> rfl

theorem reports_listDevices (env : Env) (config : Config) (hist : List Event) :
    reports (listDevices env config hist).2 = [] := by
  rcases listDevices_events env config hist with h | h <;> rw [h] <;> rfl

/-- When the listing succeeds, `cleanDisconnectedDevices` returns nil and its events are
those of the listing followed by those of the loop. -/
theorem cleanDisconnectedDevices_of_listed (env : Env) (config : Config) (dryRun : Bool)
    (hist : List Event) (devices : List Device)
    (hlist : (listDevices env config hist).1 = .ok devices) :
    cleanDisconnectedDevices env config dryRun hist
      = (none, (listDevices env config hist).2
          ++ loopEvents env config dryRun env.now
              (hist ++ (listDevices env config hist).2) devices) := by
  simp only [cleanDisconnectedDevices, hlist]

/-- When the listing fails, `cleanDisconnectedDevices` returns the wrapped error and its
events are those of the listing. -/
theorem cleanDisconnectedDevices_of_failed (env : Env) (config : Config) (dryRun : Bool)
    (hist : List Event) (err : GoError)
    (hfail : (listDevices env config hist).1 = .error err) :
    cleanDisconnectedDevices env config dryRun hist
      = (some (.wrapped "failed to list devices" err), (listDevices env config hist).2) := by
  simp only [cleanDisconnectedDevices, hfail]

theorem isCandidate_iff (config : Config) (now : Time) (device : Device) :
    isCandidate config now device = true
      ↔ isExcluded device.Name config.ExcludedDevices = false
        ∧ (timeSub now device.LastSeen).ns > config.LastSeenTimeout.ns := by
  simp [isCandidate]

theorem deleteCalls_cleanDisconnectedDevices (env : Env) (config : Config) (dryRun : Bool)
    (hist : List Event) (devices : List Device)
    (hlist : (listDevices env config hist).1 = .ok devices) :
    deleteCalls (cleanDisconnectedDevices env config dryRun hist).2
      = if dryRun = false then ((devices.filter (isCandidate config env.now)).map Device.ID)
        else [] := by
  rw [cleanDisconnectedDevices_of_listed env config dryRun hist devices hlist]
  simp only [deleteCalls_append, deleteCalls_listDevices, deleteCalls_loopEvents,
    List.nil_append]

/-! ## Dry run -/

theorem loopEvents_dry (env : Env) (config : Config) (now : Time) (hist : List Event)
    (devices : List Device) :
    loopEvents env config true now hist devices = dryRunEvents config now devices := by
  induction devices generalizing hist with
  | nil => rfl
  | cons d rest ih =>
    simp only [loopEvents, dryRunEvents, ih]
    congr 1

theorem httpRequests_dryRunEvents (config : Config) (now : Time) (devices : List Device) :
    httpRequests (dryRunEvents config now devices) = [] := by
  induction devices with
  | nil => rfl
  | cons d rest ih =>
    simp only [dryRunEvents, httpRequests_append, ih, List.append_nil]
    split
    · rfl
    · split <;> rfl

theorem httpRequests_listDevices (env : Env) (config : Config) (hist : List Event) :
    ∀ r ∈ httpRequests (listDevices env config hist).2, r = listRequest config := by
  rcases listDevices_events env config hist with h | h <;> rw [h] <;> simp [httpRequests]

/-- C4: with `dryRun = true`, for every configuration and every world
`cleanDisconnectedDevices` never calls `deleteDevice` and hands the client no request
other than the `GET` of the listing; when the listing succeeds with `devices` it returns
nil and, after the events of the listing, its events are, device by device in listing
order, the skip report for an excluded device, the disconnected report followed by
`Dry run enabled; skipping deletion.` for a candidate, and nothing for the others. -/
theorem dry_run_issues_no_delete (env : Env) (config : Config) (hist : List Event) :
    deleteCalls (cleanDisconnectedDevices env config true hist).2 = []
      ∧ (∀ r ∈ httpRequests (cleanDisconnectedDevices env config true hist).2,
          r = listRequest config ∧ r.method = "GET")
      ∧ (∀ devices, (listDevices env config hist).1 = .ok devices →
          (cleanDisconnectedDevices env config true hist).1 = none
            ∧ (cleanDisconnectedDevices env config true hist).2
                = (listDevices env config hist).2 ++ dryRunEvents config env.now devices)
      ∧ (∀ durationString,
          Report.dryRunSkip.text durationString = "Dry run enabled; skipping deletion.\n") := by
  have hget : ∀ r ∈ httpRequests (listDevices env config hist).2,
      r = listRequest config ∧ r.method = "GET" := by
    intro r hr
    have := httpRequests_listDevices env config hist r hr
    exact ⟨this, by rw [this]; rfl⟩
  have hok : ∀ devices, (listDevices env config hist).1 = .ok devices →
      cleanDisconnectedDevices env config true hist
        = (none, (listDevices env config hist).2 ++ dryRunEvents config env.now devices) := by
    intro devices hlist
    have hc := cleanDisconnectedDevices_of_listed env config true hist devices hlist
    rwa [loopEvents_dry] at hc
  refine ⟨?_, ?_, ?_, fun _ => rfl⟩
  · cases hr : (listDevices env config hist).1 with
    | error err =>
      rw [cleanDisconnectedDevices_of_failed env config true hist err hr]
      exact deleteCalls_listDevices env config hist
    | ok devices =>
      rw [deleteCalls_cleanDisconnectedDevices env config true hist devices hr]
      simp
  · cases hr : (listDevices env config hist).1 with
    | error err =>
      rw [cleanDisconnectedDevices_of_failed env config true hist err hr]
      exact hget
    | ok devices =>
      rw [hok devices hr]
      intro r hmem
      rw [httpRequests_append, httpRequests_dryRunEvents, List.append_nil] at hmem
      exact hget r hmem
  · intro devices hlist
    rw [hok devices hlist]
    exact ⟨rfl, rfl⟩

/-- C4 at a listing of the device `staleNode`, last seen twenty minutes ago, with the
threshold of fifteen minutes: the run lists, reports the device and the skipped deletion,
and returns nil. -/
theorem dry_run_issues_no_delete_witness :
    (listDevices (respondingEnv okResponse [staleNode] sampleNow
          (sampleFlags fifteenMinutes [] true)) (sampleConfig fifteenMinutes []) []).1
        = .ok [staleNode]
      ∧ (cleanDisconnectedDevices (respondingEnv okResponse [staleNode] sampleNow
            (sampleFlags fifteenMinutes [] true)) (sampleConfig fifteenMinutes []) true []).1
          = none
      ∧ deleteCalls (cleanDisconnectedDevices (respondingEnv okResponse [staleNode] sampleNow
            (sampleFlags fifteenMinutes [] true)) (sampleConfig fifteenMinutes []) true []).2
          = [] :=
  have h := dry_run_issues_no_delete
    (respondingEnv okResponse [staleNode] sampleNow (sampleFlags fifteenMinutes [] true))
    (sampleConfig fifteenMinutes []) []
  ⟨rfl, (h.2.2.1 [staleNode] rfl).1, h.1⟩

/-! ## A listing failure -/

/-- C5: if `listDevices` fails with `err`, then for either value of `dryRun`
`cleanDisconnectedDevices` returns the error `failed to list devices: <err>` wrapping
`err`, its events are those of the listing alone (at most the one `GET` request), so
`deleteDevice` is never called and nothing is printed, and `main` exits with code 1.
`listDevices` does fail on a transport failure, on a status other than 200 and on a body
that does not decode. -/
theorem listing_failure_aborts_before_evaluation (env : Env) (config : Config)
    (dryRun : Bool) (hist : List Event) (err : GoError)
    (hfail : (listDevices env config hist).1 = .error err) :
    (cleanDisconnectedDevices env config dryRun hist).1
        = some (.wrapped "failed to list devices" err)
      ∧ (GoError.wrapped "failed to list devices" err).Error
          = "failed to list devices: " ++ err.Error
      ∧ (cleanDisconnectedDevices env config dryRun hist).2 = (listDevices env config hist).2
      ∧ deleteCalls (cleanDisconnectedDevices env config dryRun hist).2 = []
      ∧ reports (cleanDisconnectedDevices env config dryRun hist).2 = []
      ∧ (∀ r ∈ httpRequests (cleanDisconnectedDevices env config dryRun hist).2,
          r = listRequest config ∧ r.method = "GET")
      ∧ (∀ args flags, env.appParse args = .ok flags → configOf flags = config → hist = []
          → (main env args).1 = 1)
      ∧ (env.newRequestError "GET" (listRequest config).url = none →
          (∀ msg, env.clientDo hist (listRequest config) = .error msg →
            (listDevices env config hist).1
              = .error (.wrapped "failed to execute request" (.lib msg)))
          ∧ (∀ resp, env.clientDo hist (listRequest config) = .ok resp →
              resp.StatusCode ≠ 200 →
              (listDevices env config hist).1
                = .error (.unexpectedStatus resp.Status resp.Body))
          ∧ (∀ resp msg, env.clientDo hist (listRequest config) = .ok resp →
              resp.StatusCode = 200 → env.decodeDevices resp.Body = .error msg →
              (listDevices env config hist).1
                = .error (.wrapped "failed to decode response" (.lib msg)))) := by
  have hc := cleanDisconnectedDevices_of_failed env config dryRun hist err hfail
  refine ⟨by rw [hc], rfl, by rw [hc], ?_, ?_, ?_, ?_, ?_⟩
  · rw [hc]; exact deleteCalls_listDevices env config hist
  · rw [hc]; exact reports_listDevices env config hist
  · rw [hc]
    intro r hr
    have := httpRequests_listDevices env config hist r hr
    exact ⟨this, by rw [this]; rfl⟩
  · intro args flags hparse hcfg hhist
    subst hhist
    subst hcfg
    have hc2 := cleanDisconnectedDevices_of_failed env (configOf flags) flags.dryRun [] err hfail
    simp only [main, hparse, showVersion, versionFlagOwner, parsedApp]
    simp [hc2]
  · intro hnew
    have hnew2 : env.newRequestError (listRequest config).method (listRequest config).url
        = none := hnew
    refine ⟨?_, ?_, ?_⟩
    · intro msg hdo
      simp only [listDevices, hnew2, hdo]
    · intro resp hdo hcode
      simp only [listDevices, hnew2, hdo, StatusOK]
      rw [if_pos hcode]
    · intro resp msg hdo hcode hdec
      simp only [listDevices, hnew2, hdo, StatusOK, hdec]
      rw [if_neg (not_not.mpr hcode)]

/-- C5 at a world that answers the listing with `503 Service Unavailable`: the run
returns the wrapped error after the one `GET` request, without a call of `deleteDevice`. -/
theorem listing_failure_aborts_before_evaluation_witness :
    (listDevices (respondingEnv unavailableResponse [staleNode] sampleNow
          (sampleFlags fifteenMinutes [] false)) (sampleConfig fifteenMinutes []) []).1
        = .error (.unexpectedStatus "503 Service Unavailable" "upstream down")
      ∧ (cleanDisconnectedDevices (respondingEnv unavailableResponse [staleNode] sampleNow
            (sampleFlags fifteenMinutes [] false)) (sampleConfig fifteenMinutes []) false []).1
          = some (.wrapped "failed to list devices"
              (.unexpectedStatus "503 Service Unavailable" "upstream down"))
      ∧ deleteCalls (cleanDisconnectedDevices (respondingEnv unavailableResponse [staleNode]
            sampleNow (sampleFlags fifteenMinutes [] false))
            (sampleConfig fifteenMinutes []) false []).2 = [] :=
  have h := listing_failure_aborts_before_evaluation
    (respondingEnv unavailableResponse [staleNode] sampleNow
      (sampleFlags fifteenMinutes [] false))
    (sampleConfig fifteenMinutes []) false []
    (.unexpectedStatus "503 Service Unavailable" "upstream down") rfl
  ⟨rfl, h.1, h.2.2.2.1⟩

/-! ## Deletion failures -/

/-- The client is handed the request of `deleteDevice` exactly when `http.NewRequest`
accepts its URL, whatever the client answers. -/
theorem deleteDevice_events_eq (env : Env) (config : Config) (deviceID : String)
    (hist : List Event) :
    (deleteDevice env config deviceID hist).2
      = if (env.newRequestError "DELETE" (deleteRequest config deviceID).url).isNone = true
        then [.http (deleteRequest config deviceID)] else [] := by
  have hm : (deleteRequest config deviceID).method = "DELETE" := rfl
  unfold deleteDevice
  simp only [hm]
  cases env.newRequestError "DELETE" (deleteRequest config deviceID).url with
  | some msg => simp
  | none =>
    simp only [Option.isNone_none, if_true]
    split
    · rfl
    · split <;> rfl

theorem httpRequests_loopBody_wet (env : Env) (config : Config) (now : Time)
    (hist : List Event) (device : Device) :
    httpRequests (loopBody env config false now hist device)
      = if (isCandidate config now device
            && (env.newRequestError "DELETE" (deleteRequest config device.ID).url).isNone)
          = true
        then [deleteRequest config device.ID] else [] := by
  cases hex : isExcluded device.Name config.ExcludedDevices with
  | true =>
    rw [loopBody_of_excluded env config false now hist device hex]
    simp [isCandidate, hex, httpRequests]
  | false =>
    by_cases h : (timeSub now device.LastSeen).ns > config.LastSeenTimeout.ns
    · rw [loopBody_wet env config now hist device hex h]
      simp only [httpRequests_append, deleteDevice_events_eq]
      cases hn : (env.newRequestError "DELETE" (deleteRequest config device.ID).url).isNone
        <;> simp [isCandidate, hex, h, httpRequests]
    · rw [loopBody_of_recent env config false now hist device hex h]
      simp [isCandidate, hex, h, httpRequests]

theorem httpRequests_loopEvents_wet (env : Env) (config : Config) (now : Time)
    (hist : List Event) (devices : List Device) :
    httpRequests (loopEvents env config false now hist devices)
      = (devices.filter (fun d => isCandidate config now d
            && (env.newRequestError "DELETE" (deleteRequest config d.ID).url).isNone)).map
          (fun d => deleteRequest config d.ID) := by
  induction devices generalizing hist with
  | nil => simp [loopEvents, httpRequests]
  | cons d rest ih =>
    simp only [loopEvents, httpRequests_append, httpRequests_loopBody_wet, ih,
      List.filter_cons]
    split <;> simp

/-! ## At most one deletion for each listing entry -/

theorem httpRequests_loopBody_sublist (env : Env) (config : Config) (dryRun : Bool)
    (now : Time) (hist : List Event) (device : Device) :
    (httpRequests (loopBody env config dryRun now hist device)).Sublist
      ((deleteCalls (loopBody env config dryRun now hist device)).map
        (deleteRequest config)) := by
  cases hex : isExcluded device.Name config.ExcludedDevices with
  | true =>
    rw [loopBody_of_excluded env config dryRun now hist device hex]
    simp [httpRequests, deleteCalls]
  | false =>
    by_cases h : (timeSub now device.LastSeen).ns > config.LastSeenTimeout.ns
    · cases dryRun with
      | true =>
        rw [loopBody_dry env config now hist device hex h]
        simp [httpRequests, deleteCalls]
      | false =>
        rw [loopBody_wet env config now hist device hex h]
        simp only [httpRequests_append, deleteCalls_append, deleteCalls_deleteDevice]
        rcases deleteDevice_events env config device.ID (hist ++
          [.print (.disconnectedFound (timeSub now device.LastSeen) device.Name device.ID),
            .deleteCall device.ID]) with hd | hd <;> rw [hd] <;>
          simp [httpRequests, deleteCalls]
    · rw [loopBody_of_recent env config dryRun now hist device hex h]
      simp [httpRequests, deleteCalls]

theorem httpRequests_loopEvents_sublist (env : Env) (config : Config) (dryRun : Bool)
    (now : Time) (hist : List Event) (devices : List Device) :
    (httpRequests (loopEvents env config dryRun now hist devices)).Sublist
      ((deleteCalls (loopEvents env config dryRun now hist devices)).map
        (deleteRequest config)) := by
  induction devices generalizing hist with
  | nil => simp [loopEvents, httpRequests, deleteCalls]
  | cons d rest ih =>
    simp only [loopEvents, httpRequests_append, deleteCalls_append, List.map_append]
    exact List.Sublist.append (httpRequests_loopBody_sublist env config dryRun now hist d)
      (ih _)

/-- C7, as amended: in one run of `cleanDisconnectedDevices` on a listing `devices`, the
identifiers `deleteDevice` is called with are, in listing order, those of the listing
entries that are candidates (none when `dryRun` is true); so each listing entry gets at
most one call, an identifier gets at most as many calls as the listing has entries with
it, and at most one when the identifiers of the listing are pairwise distinct; a call is
made only for a device that is not excluded and was last seen earlier than `now` minus the
threshold; and the HTTP requests after the one of the listing are delete requests for
called identifiers, in the same order. -/
theorem delete_at_most_once_per_listing_entry (env : Env) (config : Config) (dryRun : Bool)
    (hist : List Event) (devices : List Device)
    (hlist : (listDevices env config hist).1 = .ok devices) :
    deleteCalls (cleanDisconnectedDevices env config dryRun hist).2
        = (if dryRun = false then (devices.filter (isCandidate config env.now)).map Device.ID
            else [])
      ∧ (deleteCalls (cleanDisconnectedDevices env config dryRun hist).2).Sublist
          (devices.map Device.ID)
      ∧ (∀ id, (deleteCalls (cleanDisconnectedDevices env config dryRun hist).2).count id
          ≤ (devices.map Device.ID).count id)
      ∧ ((devices.map Device.ID).Nodup →
          (deleteCalls (cleanDisconnectedDevices env config dryRun hist).2).Nodup)
      ∧ (∀ id ∈ deleteCalls (cleanDisconnectedDevices env config dryRun hist).2,
          ∃ d ∈ devices, d.ID = id ∧ isExcluded d.Name config.ExcludedDevices = false
            ∧ d.LastSeen < env.now - config.LastSeenTimeout.ns)
      ∧ (∃ later, httpRequests (cleanDisconnectedDevices env config dryRun hist).2
            = httpRequests (listDevices env config hist).2 ++ later
          ∧ later.Sublist
              ((deleteCalls (cleanDisconnectedDevices env config dryRun hist).2).map
                (deleteRequest config))) := by
  have hcalls := deleteCalls_cleanDisconnectedDevices env config dryRun hist devices hlist
  have hsub : (deleteCalls (cleanDisconnectedDevices env config dryRun hist).2).Sublist
      (devices.map Device.ID) := by
    rw [hcalls]
    split
    · exact List.Sublist.map _ (List.filter_sublist _)
    · exact List.nil_sublist _
  refine ⟨hcalls, hsub, fun id => hsub.count_le id, fun hnd => hnd.sublist hsub, ?_, ?_⟩
  · intro id hid
    rw [hcalls] at hid
    split at hid
    · obtain ⟨d, hd, rfl⟩ := List.mem_map.mp hid
      obtain ⟨hmem, hcand⟩ := List.mem_filter.mp hd
      obtain ⟨hex, hstale⟩ := (isCandidate_iff config env.now d).mp hcand
      have := timeSub_gt_imp env.now d.LastSeen config.LastSeenTimeout hstale
      exact ⟨d, hmem, rfl, hex, by linarith⟩
    · simp at hid
  · rw [cleanDisconnectedDevices_of_listed env config dryRun hist devices hlist]
    refine ⟨httpRequests (loopEvents env config dryRun env.now
      (hist ++ (listDevices env config hist).2) devices), httpRequests_append _ _, ?_⟩
    rw [deleteCalls_append, deleteCalls_listDevices, List.nil_append]
    exact httpRequests_loopEvents_sublist env config dryRun env.now _ devices

/-- The amended C7 at a listing of the devices `neverSeen` and `staleNode`: `deleteDevice`
is called once for each. -/
theorem delete_at_most_once_per_listing_entry_witness :
    (listDevices (respondingEnv okResponse [neverSeen, staleNode] sampleNow
          (sampleFlags fifteenMinutes [] false)) (sampleConfig fifteenMinutes []) []).1
        = .ok [neverSeen, staleNode]
      ∧ ([neverSeen, staleNode].map Device.ID).Nodup
      ∧ (deleteCalls (cleanDisconnectedDevices
            (respondingEnv okResponse [neverSeen, staleNode] sampleNow
              (sampleFlags fifteenMinutes [] false))
            (sampleConfig fifteenMinutes []) false []).2).Nodup :=
  have h := delete_at_most_once_per_listing_entry
    (respondingEnv okResponse [neverSeen, staleNode] sampleNow
      (sampleFlags fifteenMinutes [] false))
    (sampleConfig fifteenMinutes []) false [] [neverSeen, staleNode] rfl
  ⟨rfl, by decide, h.2.2.2.1 (by decide)⟩

/-- C7 as stated fails: when the lister returns the device `staleNode` twice,
`deleteDevice` is called twice with its identifier in one run, and the client is handed
two delete requests for it. -/
theorem delete_twice_for_repeated_entry :
    (listDevices (respondingEnv okResponse [staleNode, staleNode] sampleNow
          (sampleFlags fifteenMinutes [] false)) (sampleConfig fifteenMinutes []) []).1
        = .ok [staleNode, staleNode]
      ∧ deleteCalls (cleanDisconnectedDevices
            (respondingEnv okResponse [staleNode, staleNode] sampleNow
              (sampleFlags fifteenMinutes [] false))
            (sampleConfig fifteenMinutes []) false []).2 = ["n2", "n2"]
      ∧ (httpRequests (cleanDisconnectedDevices
            (respondingEnv okResponse [staleNode, staleNode] sampleNow
              (sampleFlags fifteenMinutes [] false))
            (sampleConfig fifteenMinutes []) false []).2).count
          (deleteRequest (sampleConfig fifteenMinutes []) "n2") = 2
      ∧ ¬ (deleteCalls (cleanDisconnectedDevices
            (respondingEnv okResponse [staleNode, staleNode] sampleNow
              (sampleFlags fifteenMinutes [] false))
            (sampleConfig fifteenMinutes []) false []).2).count staleNode.ID ≤ 1 := by
  refine ⟨rfl, by decide, by decide, by decide⟩

/-! ## Status codes -/

/-- C8: once the client has returned a response, `deleteDevice` returns nil exactly when
the status code is 200 and `listDevices` returns devices only when it is 200; with any
other status code (204 included) both return the error whose message is
`unexpected status: <status>, body: <body>`, made of the status line and the body of the
response. -/
theorem only_status_200_succeeds (env : Env) (config : Config) (hist : List Event)
    (resp : Response) :
    (∀ deviceID, env.newRequestError "DELETE" (deleteRequest config deviceID).url = none →
        env.clientDo hist (deleteRequest config deviceID) = .ok resp →
        ((deleteDevice env config deviceID hist).1 = none ↔ resp.StatusCode = 200)
          ∧ (resp.StatusCode ≠ 200 → (deleteDevice env config deviceID hist).1
              = some (.unexpectedStatus resp.Status resp.Body)))
      ∧ (env.newRequestError "GET" (listRequest config).url = none →
          env.clientDo hist (listRequest config) = .ok resp →
          (∀ devices, (listDevices env config hist).1 = .ok devices → resp.StatusCode = 200)
            ∧ (resp.StatusCode ≠ 200 → (listDevices env config hist).1
                = .error (.unexpectedStatus resp.Status resp.Body)))
      ∧ (GoError.unexpectedStatus resp.Status resp.Body).Error
          = "unexpected status: " ++ resp.Status ++ ", body: " ++ resp.Body := by
  refine ⟨?_, ?_, rfl⟩
  · intro deviceID hnew hdo
    have hnew2 : env.newRequestError (deleteRequest config deviceID).method
        (deleteRequest config deviceID).url = none := hnew
    by_cases hcode : resp.StatusCode = 200
    · simp [deleteDevice, hnew2, hdo, StatusOK, hcode]
    · simp [deleteDevice, hnew2, hdo, StatusOK, hcode]
  · intro hnew hdo
    have hnew2 : env.newRequestError (listRequest config).method (listRequest config).url
        = none := hnew
    by_cases hcode : resp.StatusCode = 200
    · simp [hcode]
    · simp [listDevices, hnew2, hdo, StatusOK, hcode]

/-- C8 at a world that answers every request with `204 No Content`: `deleteDevice`
returns the error `unexpected status: 204 No Content, body: `. -/
theorem only_status_200_succeeds_witness :
    (respondingEnv noContentResponse [] sampleNow
          (sampleFlags fifteenMinutes [] false)).clientDo []
        (deleteRequest (sampleConfig fifteenMinutes []) "n2") = .ok noContentResponse
      ∧ (deleteDevice (respondingEnv noContentResponse [] sampleNow
            (sampleFlags fifteenMinutes [] false)) (sampleConfig fifteenMinutes []) "n2" []).1
          = some (.unexpectedStatus "204 No Content" "") :=
  ⟨rfl, ((only_status_200_succeeds
    (respondingEnv noContentResponse [] sampleNow (sampleFlags fifteenMinutes [] false))
    (sampleConfig fifteenMinutes []) [] noContentResponse).1 "n2" rfl rfl).2 (by decide)⟩

/-! ## The version flag -/

theorem loopBody_prints_no_version (env : Env) (config : Config) (dryRun : Bool)
    (now : Time) (hist : List Event) (device : Device) (v : String) :
    Event.print (.version v) ∉ loopBody env config dryRun now hist device := by
  cases hex : isExcluded device.Name config.ExcludedDevices with
  | true =>
    rw [loopBody_of_excluded env config dryRun now hist device hex]
    simp
  | false =>
    by_cases h : (timeSub now device.LastSeen).ns > config.LastSeenTimeout.ns
    · cases dryRun with
      | true =>
        rw [loopBody_dry env config now hist device hex h]
        simp
      | false =>
        rw [loopBody_wet env config now hist device hex h]
        rcases deleteDevice_events env config device.ID (hist ++
          [.print (.disconnectedFound (timeSub now device.LastSeen) device.Name device.ID),
            .deleteCall device.ID]) with hd | hd <;> rw [hd] <;>
          cases (deleteDevice env config device.ID (hist ++
            [.print (.disconnectedFound (timeSub now device.LastSeen) device.Name device.ID),
              .deleteCall device.ID])).1 <;> simp
    · rw [loopBody_of_recent env config dryRun now hist device hex h]
      simp

theorem loopEvents_prints_no_version (env : Env) (config : Config) (dryRun : Bool)
    (now : Time) (hist : List Event) (devices : List Device) (v : String) :
    Event.print (.version v) ∉ loopEvents env config dryRun now hist devices := by
  induction devices generalizing hist with
  | nil => simp [loopEvents]
  | cons d rest ih =>
    simp only [loopEvents, List.mem_append, not_or]
    exact ⟨loopBody_prints_no_version env config dryRun now hist d v, ih _⟩

theorem cleanDisconnectedDevices_prints_no_version (env : Env) (config : Config)
    (dryRun : Bool) (hist : List Event) (v : String) :
    Event.print (.version v) ∉ (cleanDisconnectedDevices env config dryRun hist).2 := by
  have hl : Event.print (.version v) ∉ (listDevices env config hist).2 := by
    rcases listDevices_events env config hist with h | h <;> rw [h] <;> simp
  cases hr : (listDevices env config hist).1 with
  | error err =>
    rw [cleanDisconnectedDevices_of_failed env config dryRun hist err hr]
    exact hl
  | ok devices =>
    rw [cleanDisconnectedDevices_of_listed env config dryRun hist devices hr]
    simp only [List.mem_append, not_or]
    exact ⟨hl, loopEvents_prints_no_version env config dryRun env.now _ devices v⟩

/-- C9 fails on the code: for every world and every command line, with `--version` among
the arguments or not, the value `main` reads at the version check is false and the line
`Version: <Version>` is never printed; the version branch is not reachable. -/
theorem version_branch_is_unreachable (env : Env) (args : List String) :
    showVersion args = false
      ∧ showVersion ("--version" :: args) = false
      ∧ (∀ v, Event.print (.version v) ∉ (main env args).2)
      ∧ (main env args) ≠ (0, [.print (.version Version)]) := by
  have hnever : ∀ v, Event.print (.version v) ∉ (main env args).2 := by
    intro v
    unfold main
    cases env.appParse args with
    | exited code => simp
    | error msg => simp
    | ok flags =>
      have hc := cleanDisconnectedDevices_prints_no_version env (configOf flags)
        flags.dryRun [] v
      simp only [showVersion, versionFlagOwner, parsedApp]
      cases hr : (cleanDisconnectedDevices env (configOf flags) flags.dryRun []).1 with
      | none => simpa [hr] using hc
      | some err => simpa [hr] using hc
  refine ⟨rfl, rfl, hnever, ?_⟩
  intro h
  have := hnever Version
  rw [h] at this
  simp at this

/-! ## Requests handed to the client -/

theorem mem_httpRequests (r : Request) (evs : List Event) :
    r ∈ httpRequests evs ↔ Event.http r ∈ evs := by
  induction evs with
  | nil => simp [httpRequests]
  | cons e evs ih => cases e <;> simp [httpRequests, ih]

/-- When `http.NewRequest` refuses the URL, `deleteDevice` returns the error
`failed to create request: <msg>` and hands the client nothing. -/
theorem deleteDevice_of_refused (env : Env) (config : Config) (deviceID : String)
    (hist : List Event) (msg : String)
    (h : env.newRequestError "DELETE" (deleteRequest config deviceID).url = some msg) :
    deleteDevice env config deviceID hist
      = (some (.wrapped "failed to create request" (.lib msg)), []) := by
  have hm : (deleteRequest config deviceID).method = "DELETE" := rfl
  simp only [deleteDevice, hm, h]

/-- A listing that succeeded handed the client its one request. -/
theorem listDevices_events_of_ok (env : Env) (config : Config) (hist : List Event)
    (devices : List Device) (h : (listDevices env config hist).1 = .ok devices) :
    (listDevices env config hist).2 = [.http (listRequest config)] := by
  unfold listDevices at h ⊢
  simp only at h ⊢
  split
  · rename_i heq
    simp [heq] at h
  · split
    · rfl
    · split
      · rfl
      · split <;> rfl

theorem httpRequests_loopBody_dry (env : Env) (config : Config) (now : Time)
    (hist : List Event) (device : Device) :
    httpRequests (loopBody env config true now hist device) = [] := by
  have h := httpRequests_loopBody_sublist env config true now hist device
  rw [deleteCalls_loopBody] at h
  simpa using h

/-! ## The staleness decision -/

/-- C2, as amended: for a listed device that is not excluded and was last seen at
`now - Δ`, where `Δ` fits in a duration or the threshold is below the maximum duration,
the loop body reports the device as disconnected (for either value of `dryRun`) exactly
when `Δ` is strictly greater than the threshold; with `dryRun` false it calls
`deleteDevice` for it exactly in that case, and it hands the client a delete request for
it exactly when moreover `http.NewRequest` accepts the URL of the request, that request
being then the only one; when `http.NewRequest` refuses, the failure
`failed to create request` is reported instead; with `dryRun` true no request is handed to
the client; and when `Δ` is at most the threshold (equality included) the loop body
produces no event at all. -/
theorem candidate_iff_elapsed_exceeds_threshold (env : Env) (config : Config) (now : Time)
    (hist : List Event) (device : Device) (Δ : Int)
    (hex : isExcluded device.Name config.ExcludedDevices = false)
    (hΔ : device.LastSeen = now - Δ)
    (hfit : Δ ≤ maxDuration ∨ config.LastSeenTimeout.ns < maxDuration) :
    (∀ dryRun, (∃ d, Event.print (.disconnectedFound d device.Name device.ID)
          ∈ loopBody env config dryRun now hist device) ↔ Δ > config.LastSeenTimeout.ns)
      ∧ (Event.http (deleteRequest config device.ID)
            ∈ loopBody env config false now hist device
          ↔ Δ > config.LastSeenTimeout.ns
            ∧ env.newRequestError "DELETE" (deleteRequest config device.ID).url = none)
      ∧ httpRequests (loopBody env config false now hist device)
          = (if Δ > config.LastSeenTimeout.ns
              ∧ env.newRequestError "DELETE" (deleteRequest config device.ID).url = none
            then [deleteRequest config device.ID] else [])
      ∧ (∀ msg, Δ > config.LastSeenTimeout.ns →
          env.newRequestError "DELETE" (deleteRequest config device.ID).url = some msg →
          loopBody env config false now hist device
            = [.print (.disconnectedFound (timeSub now device.LastSeen) device.Name
                device.ID), .deleteCall device.ID,
              .print (.failedToDelete device.Name
                (.wrapped "failed to create request" (.lib msg)))])
      ∧ (Event.deleteCall device.ID ∈ loopBody env config false now hist device
          ↔ Δ > config.LastSeenTimeout.ns)
      ∧ httpRequests (loopBody env config true now hist device) = []
      ∧ (∀ dryRun, Δ ≤ config.LastSeenTimeout.ns
          → loopBody env config dryRun now hist device = []) := by
  have hd : now - device.LastSeen = Δ := by rw [hΔ]; ring
  have key : (timeSub now device.LastSeen).ns > config.LastSeenTimeout.ns
      ↔ Δ > config.LastSeenTimeout.ns := by
    constructor
    · intro h
      have := timeSub_gt_imp now device.LastSeen config.LastSeenTimeout h
      rwa [hd] at this
    · intro h
      exact timeSub_gt_of now device.LastSeen config.LastSeenTimeout
        (by rw [hd]; exact hfit) (by rw [hd]; exact h)
  have hcand : isCandidate config now device = true ↔ Δ > config.LastSeenTimeout.ns := by
    rw [isCandidate_iff, ← key]
    exact ⟨fun h => h.2, fun h => ⟨hex, h⟩⟩
  have hlist : httpRequests (loopBody env config false now hist device)
      = (if Δ > config.LastSeenTimeout.ns
          ∧ env.newRequestError "DELETE" (deleteRequest config device.ID).url = none
        then [deleteRequest config device.ID] else []) := by
    rw [httpRequests_loopBody_wet]
    by_cases hgt : Δ > config.LastSeenTimeout.ns
    · have hc := hcand.mpr hgt
      cases hn : env.newRequestError "DELETE" (deleteRequest config device.ID).url <;>
        simp [hc, hgt]
    · have hc : isCandidate config now device = false := by
        cases h : isCandidate config now device
        · rfl
        · exact absurd (hcand.mp h) hgt
      simp [hc, hgt]
  refine ⟨?_, ?_, hlist, ?_, ?_, httpRequests_loopBody_dry env config now hist device, ?_⟩
  · intro dryRun
    rw [← key]
    constructor
    · rintro ⟨d, hmem⟩
      by_contra hn
      rw [loopBody_of_recent env config dryRun now hist device hex hn] at hmem
      simp at hmem
    · intro h
      refine ⟨timeSub now device.LastSeen, ?_⟩
      cases dryRun with
      | true => rw [loopBody_dry env config now hist device hex h]; simp
      | false => rw [loopBody_wet env config now hist device hex h]; simp
  · rw [← mem_httpRequests, hlist]
    by_cases hc : Δ > config.LastSeenTimeout.ns
        ∧ env.newRequestError "DELETE" (deleteRequest config device.ID).url = none
    · rw [if_pos hc]
      simp [hc]
    · rw [if_neg hc]
      simp [hc]
  · intro msg hgt hnew
    rw [loopBody_wet env config now hist device hex (key.mpr hgt),
      deleteDevice_of_refused env config device.ID _ msg hnew]
    rfl
  · rw [← key]
    constructor
    · intro hmem
      by_contra hn
      rw [loopBody_of_recent env config false now hist device hex hn] at hmem
      simp at hmem
    · intro h
      rw [loopBody_wet env config now hist device hex h]
      simp
  · intro dryRun hle
    apply loopBody_of_recent env config dryRun now hist device hex
    rw [key]
    exact not_lt.mpr hle

/-- The amended C2 at the device `staleNode`, last seen twenty minutes ago, with the
threshold of fifteen minutes, in a world where `http.NewRequest` accepts every URL: the
client is handed the delete request for it. -/
theorem candidate_iff_elapsed_exceeds_threshold_witness :
    Event.http (deleteRequest (sampleConfig fifteenMinutes []) staleNode.ID)
        ∈ loopBody (respondingEnv okResponse [staleNode] sampleNow
            (sampleFlags fifteenMinutes [] false))
          (sampleConfig fifteenMinutes []) false sampleNow [] staleNode
      ↔ (1200000000000 : Int) > (sampleConfig fifteenMinutes []).LastSeenTimeout.ns
        ∧ (respondingEnv okResponse [staleNode] sampleNow
            (sampleFlags fifteenMinutes [] false)).newRequestError "DELETE"
              (deleteRequest (sampleConfig fifteenMinutes []) staleNode.ID).url = none :=
  (candidate_iff_elapsed_exceeds_threshold
    (respondingEnv okResponse [staleNode] sampleNow (sampleFlags fifteenMinutes [] false))
    (sampleConfig fifteenMinutes []) sampleNow [] staleNode 1200000000000
    (by decide) (by decide) (Or.inl (by decide))).2.1

/-- C2 as stated fails in two ways. The device `neverSeen` is not excluded and was last
seen `Δ = sampleNow` nanoseconds before `sampleNow` (about 2025 years), which is more than
the threshold `maxThreshold` (about 292 years), yet the loop body produces no event for it,
for either value of `dryRun`. The device `staleGhost` is not excluded and was last seen
twenty minutes before `sampleNow`, more than the threshold of fifteen minutes, and it is
reported as disconnected, yet with `dryRun` false no delete request is handed to the
client for it, because `http.NewRequest` refuses the URL made with its identifier. -/
theorem candidate_iff_fails_beyond_max_duration_or_refused_url :
    (isExcluded neverSeen.Name (sampleConfig maxThreshold []).ExcludedDevices = false
      ∧ neverSeen.LastSeen = sampleNow - sampleNow
      ∧ sampleNow > (sampleConfig maxThreshold []).LastSeenTimeout.ns
      ∧ loopBody (respondingEnv okResponse [neverSeen] sampleNow
            (sampleFlags maxThreshold [] false))
          (sampleConfig maxThreshold []) false sampleNow [] neverSeen = []
      ∧ loopBody (respondingEnv okResponse [neverSeen] sampleNow
            (sampleFlags maxThreshold [] true))
          (sampleConfig maxThreshold []) true sampleNow [] neverSeen = [])
    ∧ (isExcluded staleGhost.Name (sampleConfig fifteenMinutes []).ExcludedDevices = false
      ∧ staleGhost.LastSeen = sampleNow - 1200000000000
      ∧ (1200000000000 : Int) > (sampleConfig fifteenMinutes []).LastSeenTimeout.ns
      ∧ loopBody (checkingEnv okResponse [staleGhost] sampleNow
            (sampleFlags fifteenMinutes [] false))
          (sampleConfig fifteenMinutes []) false sampleNow [] staleGhost
        = [.print (.disconnectedFound (timeSub sampleNow staleGhost.LastSeen) "laptop-c"
              staleGhost.ID),
            .deleteCall staleGhost.ID,
            .print (.failedToDelete "laptop-c" (.wrapped "failed to create request"
              (.lib "net/url: invalid control character in URL")))]
      ∧ httpRequests (loopBody (checkingEnv okResponse [staleGhost] sampleNow
            (sampleFlags fifteenMinutes [] false))
          (sampleConfig fifteenMinutes []) false sampleNow [] staleGhost) = []) := by
  refine ⟨⟨rfl, by decide, by decide, by decide, by decide⟩,
    ⟨rfl, by decide, by decide, by decide, by decide⟩⟩

/-! ## A device that was never seen -/

/-- C10, as amended: for a listed device that is not excluded and whose `LastSeen` is the
zero time, and a clock reading `now` more than `2^63 - 1` nanoseconds after the zero time,
the elapsed duration `now.Sub(LastSeen)` is the maximum duration `2^63 - 1`; for every
threshold strictly below it the device is reported as disconnected (for either value of
`dryRun`), and with `dryRun` false `deleteDevice` is called for it and the client is handed
a delete request for it exactly when `http.NewRequest` accepts the URL of the request (when
it refuses, the failure `failed to create request` is reported and the client is handed
nothing); with the threshold equal to `2^63 - 1` the loop body produces no event for it,
although the exact elapsed time `now - LastSeen` is greater than the threshold. -/
theorem never_seen_device_saturates (env : Env) (config : Config) (now : Time)
    (hist : List Event) (device : Device)
    (hex : isExcluded device.Name config.ExcludedDevices = false)
    (hzero : device.LastSeen = zeroTime)
    (hnow : now > maxDuration) :
    (timeSub now device.LastSeen).ns = maxDuration
      ∧ maxDuration = 2 ^ 63 - 1
      ∧ (config.LastSeenTimeout.ns < maxDuration →
          (∀ dryRun, Event.print
              (.disconnectedFound (timeSub now device.LastSeen) device.Name device.ID)
                ∈ loopBody env config dryRun now hist device)
            ∧ Event.deleteCall device.ID ∈ loopBody env config false now hist device
            ∧ (Event.http (deleteRequest config device.ID)
                  ∈ loopBody env config false now hist device
                ↔ env.newRequestError "DELETE" (deleteRequest config device.ID).url = none)
            ∧ httpRequests (loopBody env config false now hist device)
                = (if env.newRequestError "DELETE" (deleteRequest config device.ID).url = none
                    then [deleteRequest config device.ID] else [])
            ∧ (∀ msg,
                env.newRequestError "DELETE" (deleteRequest config device.ID).url = some msg →
                loopBody env config false now hist device
                  = [.print (.disconnectedFound (timeSub now device.LastSeen) device.Name
                      device.ID), .deleteCall device.ID,
                    .print (.failedToDelete device.Name
                      (.wrapped "failed to create request" (.lib msg)))]))
      ∧ (config.LastSeenTimeout.ns = maxDuration →
          (∀ dryRun, loopBody env config dryRun now hist device = [])
            ∧ now - device.LastSeen > config.LastSeenTimeout.ns) := by
  have habove : maxDuration < now - device.LastSeen := by
    rw [hzero]
    simpa [zeroTime] using hnow
  have hsat := timeSub_ns_of_above now device.LastSeen habove
  refine ⟨hsat, by decide, ?_, ?_⟩
  · intro hthr
    have hgt : (timeSub now device.LastSeen).ns > config.LastSeenTimeout.ns := by
      rw [hsat]; exact hthr
    have hc : isCandidate config now device = true :=
      (isCandidate_iff config now device).mpr ⟨hex, hgt⟩
    have hlist : httpRequests (loopBody env config false now hist device)
        = (if env.newRequestError "DELETE" (deleteRequest config device.ID).url = none
            then [deleteRequest config device.ID] else []) := by
      rw [httpRequests_loopBody_wet]
      cases hn : env.newRequestError "DELETE" (deleteRequest config device.ID).url <;>
        simp [hc]
    refine ⟨?_, ?_, ?_, hlist, ?_⟩
    · intro dryRun
      cases dryRun with
      | true => rw [loopBody_dry env config now hist device hex hgt]; simp
      | false => rw [loopBody_wet env config now hist device hex hgt]; simp
    · rw [loopBody_wet env config now hist device hex hgt]; simp
    · rw [← mem_httpRequests, hlist]
      by_cases hn : env.newRequestError "DELETE" (deleteRequest config device.ID).url = none
      · rw [if_pos hn]
        simp [hn]
      · rw [if_neg hn]
        simp [hn]
    · intro msg hnew
      rw [loopBody_wet env config now hist device hex hgt,
        deleteDevice_of_refused env config device.ID _ msg hnew]
      rfl
  · intro hthr
    constructor
    · intro dryRun
      apply loopBody_of_recent env config dryRun now hist device hex
      rw [hsat, hthr]
      exact lt_irrefl _
    · rw [hthr]; exact habove

/-- The amended C10 at the device `neverSeen`, the clock reading `sampleNow` and the
threshold of fifteen minutes, in a world where `http.NewRequest` accepts every URL: the
elapsed duration is the maximum duration and the client is handed the delete request for
the device. -/
theorem never_seen_device_saturates_witness :
    (timeSub sampleNow neverSeen.LastSeen).ns = maxDuration
      ∧ Event.http (deleteRequest (sampleConfig fifteenMinutes []) neverSeen.ID)
        ∈ loopBody (respondingEnv okResponse [neverSeen] sampleNow
            (sampleFlags fifteenMinutes [] false))
          (sampleConfig fifteenMinutes []) false sampleNow [] neverSeen :=
  have h := never_seen_device_saturates
    (respondingEnv okResponse [neverSeen] sampleNow (sampleFlags fifteenMinutes [] false))
    (sampleConfig fifteenMinutes []) sampleNow [] neverSeen rfl rfl (by decide)
  ⟨h.1, (h.2.2.1 (by decide)).2.2.1.mpr rfl⟩

/-- C10 as stated fails: the device `ghostNode` is not excluded, its `LastSeen` is the zero
time, `sampleNow` is more than `2^63 - 1` nanoseconds after it and the threshold of fifteen
minutes is below `2^63 - 1`; with `dryRun` false the device is reported as disconnected
with the maximum elapsed duration, yet no delete request is handed to the client for it,
in the loop body and in the whole run, because `http.NewRequest` refuses the URL made with
its identifier. -/
theorem never_seen_device_gets_no_request_when_url_refused :
    isExcluded ghostNode.Name (sampleConfig fifteenMinutes []).ExcludedDevices = false
      ∧ ghostNode.LastSeen = zeroTime
      ∧ sampleNow > maxDuration
      ∧ (sampleConfig fifteenMinutes []).LastSeenTimeout.ns < maxDuration
      ∧ loopBody (checkingEnv okResponse [ghostNode] sampleNow
            (sampleFlags fifteenMinutes [] false))
          (sampleConfig fifteenMinutes []) false sampleNow [] ghostNode
        = [.print (.disconnectedFound maxThreshold "ghost" ghostNode.ID),
            .deleteCall ghostNode.ID,
            .print (.failedToDelete "ghost" (.wrapped "failed to create request"
              (.lib "net/url: invalid control character in URL")))]
      ∧ httpRequests (loopBody (checkingEnv okResponse [ghostNode] sampleNow
            (sampleFlags fifteenMinutes [] false))
          (sampleConfig fifteenMinutes []) false sampleNow [] ghostNode) = []
      ∧ httpRequests (cleanDisconnectedDevices (checkingEnv okResponse [ghostNode] sampleNow
            (sampleFlags fifteenMinutes [] false))
          (sampleConfig fifteenMinutes []) false []).2
        = [listRequest (sampleConfig fifteenMinutes [])] := by
  refine ⟨rfl, rfl, by decide, by decide, by decide, by decide, by decide⟩

/-! ## Deletion failures do not stop the run -/

/-- C6, as amended: when the listing succeeds with `devices`, `cleanDisconnectedDevices`
returns nil and `main` exits with code 0, whatever the delete calls answer; with `dryRun`
false the devices `deleteDevice` is called for are the candidates of the listing in listing
order, and the delete requests handed to the client are those of the candidates whose URL
`http.NewRequest` accepts, in listing order after the request of the listing; both
sequences are the same in every world with the same listing, the same clock reading and
the same `http.NewRequest`, whatever the client answers to the delete requests; and when
`deleteDevice` fails for a candidate, the loop prints `Failed to delete device <name>:
<err>` for it and goes on with the devices after it, calling `deleteDevice` for each
candidate among them and handing the client the delete request of each one whose URL
`http.NewRequest` accepts. -/
theorem delete_failure_does_not_stop_the_run (env : Env) (config : Config) (dryRun : Bool)
    (hist : List Event) (devices : List Device)
    (hlist : (listDevices env config hist).1 = .ok devices) :
    (cleanDisconnectedDevices env config dryRun hist).1 = none
      ∧ (∀ args flags, env.appParse args = .ok flags → configOf flags = config → hist = []
          → (main env args).1 = 0)
      ∧ deleteCalls (cleanDisconnectedDevices env config false hist).2
          = (devices.filter (isCandidate config env.now)).map Device.ID
      ∧ (∀ env2 : Env, (listDevices env2 config hist).1 = .ok devices → env2.now = env.now →
          deleteCalls (cleanDisconnectedDevices env2 config dryRun hist).2
            = deleteCalls (cleanDisconnectedDevices env config dryRun hist).2)
      ∧ httpRequests (cleanDisconnectedDevices env config false hist).2
          = listRequest config
            :: (devices.filter (fun d => isCandidate config env.now d
                && (env.newRequestError "DELETE" (deleteRequest config d.ID).url).isNone)).map
              (fun d => deleteRequest config d.ID)
      ∧ (∀ env2 : Env, (listDevices env2 config hist).1 = .ok devices → env2.now = env.now →
          env2.newRequestError = env.newRequestError →
          httpRequests (cleanDisconnectedDevices env2 config false hist).2
            = httpRequests (cleanDisconnectedDevices env config false hist).2)
      ∧ (∀ (hist2 : List Event) (device : Device) (rest : List Device) (err : GoError),
          isCandidate config env.now device = true →
          (deleteDevice env config device.ID (hist2 ++
            [.print (.disconnectedFound (timeSub env.now device.LastSeen) device.Name
              device.ID), .deleteCall device.ID])).1 = some err →
          loopBody env config false env.now hist2 device
              = [.print (.disconnectedFound (timeSub env.now device.LastSeen) device.Name
                  device.ID), .deleteCall device.ID]
                ++ (deleteDevice env config device.ID (hist2 ++
                    [.print (.disconnectedFound (timeSub env.now device.LastSeen) device.Name
                      device.ID), .deleteCall device.ID])).2
                ++ [.print (.failedToDelete device.Name err)]
            ∧ loopEvents env config false env.now hist2 (device :: rest)
                = loopBody env config false env.now hist2 device
                  ++ loopEvents env config false env.now
                      (hist2 ++ loopBody env config false env.now hist2 device) rest
            ∧ deleteCalls (loopEvents env config false env.now
                  (hist2 ++ loopBody env config false env.now hist2 device) rest)
                = (rest.filter (isCandidate config env.now)).map Device.ID
            ∧ httpRequests (loopEvents env config false env.now
                  (hist2 ++ loopBody env config false env.now hist2 device) rest)
                = (rest.filter (fun d => isCandidate config env.now d
                    && (env.newRequestError "DELETE"
                        (deleteRequest config d.ID).url).isNone)).map
                  (fun d => deleteRequest config d.ID)) := by
  have hc := cleanDisconnectedDevices_of_listed env config dryRun hist devices hlist
  have hreq : ∀ e : Env, (listDevices e config hist).1 = .ok devices →
      httpRequests (cleanDisconnectedDevices e config false hist).2
        = listRequest config
          :: (devices.filter (fun d => isCandidate config e.now d
              && (e.newRequestError "DELETE" (deleteRequest config d.ID).url).isNone)).map
            (fun d => deleteRequest config d.ID) := by
    intro e he
    rw [cleanDisconnectedDevices_of_listed e config false hist devices he,
      httpRequests_append, httpRequests_loopEvents_wet,
      listDevices_events_of_ok e config hist devices he]
    rfl
  refine ⟨by rw [hc], ?_, ?_, ?_, hreq env hlist, ?_, ?_⟩
  · intro args flags hparse hcfg hhist
    subst hhist
    subst hcfg
    have hc2 := cleanDisconnectedDevices_of_listed env (configOf flags) flags.dryRun []
      devices hlist
    simp only [main, hparse, showVersion, versionFlagOwner, parsedApp]
    simp [hc2]
  · rw [deleteCalls_cleanDisconnectedDevices env config false hist devices hlist]
    simp
  · intro env2 hlist2 hnow
    rw [deleteCalls_cleanDisconnectedDevices env config dryRun hist devices hlist,
      deleteCalls_cleanDisconnectedDevices env2 config dryRun hist devices hlist2, hnow]
  · intro env2 hlist2 hnow hnew
    rw [hreq env hlist, hreq env2 hlist2, hnow, hnew]
  · intro hist2 device rest err hcand hdel
    obtain ⟨hex, hstale⟩ := (isCandidate_iff config env.now device).mp hcand
    refine ⟨?_, rfl, ?_, ?_⟩
    · rw [loopBody_wet env config env.now hist2 device hex hstale, hdel]
    · rw [deleteCalls_loopEvents]
      simp
    · rw [httpRequests_loopEvents_wet]

/-- The amended C6 at a listing of the devices `neverSeen` and `staleNode` in a world that
answers every delete request with `500 Internal Server Error`: the run returns nil and the
client is handed the request of the listing and the delete requests of both devices. -/
theorem delete_failure_does_not_stop_the_run_witness :
    (listDevices (deleteAnswerEnv serverErrorResponse [neverSeen, staleNode] sampleNow
          (sampleFlags fifteenMinutes [] false)) (sampleConfig fifteenMinutes []) []).1
        = .ok [neverSeen, staleNode]
      ∧ (cleanDisconnectedDevices (deleteAnswerEnv serverErrorResponse [neverSeen, staleNode]
            sampleNow (sampleFlags fifteenMinutes [] false))
            (sampleConfig fifteenMinutes []) false []).1 = none
      ∧ httpRequests (cleanDisconnectedDevices
            (deleteAnswerEnv serverErrorResponse [neverSeen, staleNode]
              sampleNow (sampleFlags fifteenMinutes [] false))
            (sampleConfig fifteenMinutes []) false []).2
          = [listRequest (sampleConfig fifteenMinutes []),
              deleteRequest (sampleConfig fifteenMinutes []) "n1",
              deleteRequest (sampleConfig fifteenMinutes []) "n2"] :=
  have h := delete_failure_does_not_stop_the_run
    (deleteAnswerEnv serverErrorResponse [neverSeen, staleNode] sampleNow
      (sampleFlags fifteenMinutes [] false))
    (sampleConfig fifteenMinutes []) false [] [neverSeen, staleNode] rfl
  ⟨rfl, h.1, h.2.2.2.2.1.trans (by decide)⟩

/-- C6 as stated fails: in a world that answers every delete request with
`500 Internal Server Error` and where `http.NewRequest` refuses a URL holding a control
character, the listing of `staleNode` and `staleGhost` succeeds and both are candidates;
the deletion of `staleNode` fails and is reported, the later candidate `staleGhost` is
evaluated and `deleteDevice` is called for it, yet no delete request is handed to the
client for it: the requests of the run are the one of the listing and the delete request
of `staleNode`. -/
theorem later_candidate_gets_no_request_when_url_refused :
    (listDevices (checkingEnv serverErrorResponse [staleNode, staleGhost] sampleNow
          (sampleFlags fifteenMinutes [] false)) (sampleConfig fifteenMinutes []) []).1
        = .ok [staleNode, staleGhost]
      ∧ isCandidate (sampleConfig fifteenMinutes []) sampleNow staleNode = true
      ∧ isCandidate (sampleConfig fifteenMinutes []) sampleNow staleGhost = true
      ∧ cleanDisconnectedDevices (checkingEnv serverErrorResponse [staleNode, staleGhost]
            sampleNow (sampleFlags fifteenMinutes [] false))
            (sampleConfig fifteenMinutes []) false []
          = (none,
              [.http (listRequest (sampleConfig fifteenMinutes [])),
                .print (.disconnectedFound (timeSub sampleNow staleNode.LastSeen) "laptop-b"
                  "n2"),
                .deleteCall "n2",
                .http (deleteRequest (sampleConfig fifteenMinutes []) "n2"),
                .print (.failedToDelete "laptop-b"
                  (.unexpectedStatus "500 Internal Server Error" "boom")),
                .print (.disconnectedFound (timeSub sampleNow staleGhost.LastSeen) "laptop-c"
                  staleGhost.ID),
                .deleteCall staleGhost.ID,
                .print (.failedToDelete "laptop-c" (.wrapped "failed to create request"
                  (.lib "net/url: invalid control character in URL")))])
      ∧ deleteRequest (sampleConfig fifteenMinutes []) staleGhost.ID
          ∉ httpRequests (cleanDisconnectedDevices
              (checkingEnv serverErrorResponse [staleNode, staleGhost]
                sampleNow (sampleFlags fifteenMinutes [] false))
              (sampleConfig fifteenMinutes []) false []).2 := by
  refine ⟨rfl, by decide, by decide, by decide, by decide⟩

end TailscaleCleanup
